import Mathlib

/-!
Shallow embedding of `tmux_utils.py` (class `TmuxOrchestrator`) from the
Tmux-Orchestrator repository, together with theorems settling the claims
about its specification.

Python strings are modelled as `List Char` (`PyStr`), with executable
models of the Python primitives the source uses (`str.split` on a
one-character separator, `str.strip`, `str.lower`, `int(...)`, the `in`
substring test, and list indexing), so that every definition evaluates
inside the kernel.

The external `tmux` binary is modelled as a `Gateway` value describing the
outcome of each subprocess invocation the class can make:
- `listSessionsOut` : stdout of `tmux list-sessions -F ...`, or a
  `CalledProcessError` (modelled as `Except.error ()`, since the code runs
  every subprocess with `check=True`);
- `listWindowsOut`  : stdout of `tmux list-windows -t <session> -F ...`;
- `displayMessageOut` : stdout of `tmux display-message -t <s>:<w> -p ...`;
- `capturePaneOut`  : stdout of `tmux capture-pane -t <s>:<w> -p -S -<n>`,
  as a function of the target and the requested line count `n`;
- `sendKeysOk`      : whether `tmux send-keys -t <s>:<w> <keys>` exits 0.

Python exceptions the code does not catch travel on an `Except PyExn`
result channel; `CalledProcessError` is caught exactly where the source
catches it.  The interactive `input(...)` confirmation of
`send_keys_to_window` is modelled as an explicit `response` argument, and
the sequence of `send-keys` subprocess invocations actually issued is
returned as an explicit trace so that call-counting properties are
statable.
-/

set_option autoImplicit false

namespace TmuxOrchestrator

/-- Python strings, modelled as their character sequences. -/
abbrev PyStr := List Char

/-- Coerces a Lean string literal into the `PyStr` model. -/
def pystr (s : String) : PyStr := s.data

/-- Python exceptions relevant to `tmux_utils.py`. `calledProcess` is
`subprocess.CalledProcessError` (raised by `subprocess.run(..., check=True)`
on a nonzero exit); the others are never caught by the source. -/
inductive PyExn where
  | calledProcess
  | valueError (msg : PyStr)
  | indexError
  | typeError (msg : PyStr)
  deriving DecidableEq, Repr

instance {ε α : Type} [DecidableEq ε] [DecidableEq α] : DecidableEq (Except ε α) := fun a b =>
  match a, b with
  | .ok x, .ok y => if h : x = y then .isTrue (by rw [h]) else .isFalse (by simp [h])
  | .error x, .error y => if h : x = y then .isTrue (by rw [h]) else .isFalse (by simp [h])
  | .ok _, .error _ => .isFalse (by simp)
  | .error _, .ok _ => .isFalse (by simp)

/-- Whitespace characters stripped by Python `str.strip()` (ASCII range). -/
def isPySpace (c : Char) : Bool :=
  c = ' ' || c = '\t' || c = '\n' || c = '\r' || c = Char.ofNat 11 || c = Char.ofNat 12

/-- Python `s.strip()`: removes leading and trailing whitespace. -/
def pyStrip (s : PyStr) : PyStr :=
  ((s.dropWhile isPySpace).reverse.dropWhile isPySpace).reverse

/-- Python `s.split(sep)` for a one-character separator (the source only
splits on `':'` and on `'\n'`): `''.split(c) = ['']`, and every occurrence
of the separator opens a new (possibly empty) field. -/
def pySplit (sep : Char) : PyStr → List PyStr
  | [] => [[]]
  | c :: rest =>
    if c = sep then [] :: pySplit sep rest
    else
      match pySplit sep rest with
      | [] => [[c]]
      | h :: t => (c :: h) :: t

/-- Python `s.lower()` (ASCII case mapping, which covers tmux names). -/
def pyLower (s : PyStr) : PyStr :=
  s.map fun c => if 'A' ≤ c && c ≤ 'Z' then Char.ofNat (c.toNat + 32) else c

/-- Accumulates a decimal digit string; `none` on any non-digit. -/
def digitsToNat (acc : Nat) : PyStr → Option Nat
  | [] => some acc
  | c :: rest => if c.isDigit then digitsToNat (acc * 10 + (c.toNat - 48)) rest else none

/-- Python `int(s)`: strips whitespace, accepts an optional sign followed by
at least one decimal digit, and raises `ValueError` otherwise. -/
def pyInt (s : PyStr) : Except PyExn Int :=
  match pyStrip s with
  | '-' :: (d :: ds) =>
    (match digitsToNat 0 (d :: ds) with
     | some n => .ok (-(n : Int))
     | none => .error (.valueError (pystr "invalid literal for int")))
  | '+' :: (d :: ds) =>
    (match digitsToNat 0 (d :: ds) with
     | some n => .ok (n : Int)
     | none => .error (.valueError (pystr "invalid literal for int")))
  | (d :: ds) =>
    (match digitsToNat 0 (d :: ds) with
     | some n => .ok (n : Int)
     | none => .error (.valueError (pystr "invalid literal for int")))
  | [] => .error (.valueError (pystr "invalid literal for int"))

/-- Python `l[i]` on a list: the element, or `IndexError` when out of range. -/
def pyIndex (l : List PyStr) (i : Nat) : Except PyExn PyStr :=
  match l.get? i with
  | some v => .ok v
  | none => .error .indexError

/-- Python `needle in haystack` on strings: substring containment (the
empty needle is contained in every string). -/
def pyInStr (needle : PyStr) : PyStr → Bool
  | [] => needle.isEmpty
  | c :: rest => needle.isPrefixOf (c :: rest) || pyInStr needle rest

/-- Decimal digits of a natural number, fuel-driven so that it reduces. -/
def natToStrAux : Nat → Nat → PyStr
  | 0, _ => []
  | _ + 1, 0 => []
  | fuel + 1, n => natToStrAux fuel (n / 10) ++ [Char.ofNat (48 + n % 10)]

/-- Decimal rendering of a natural number. -/
def natToStr (n : Nat) : PyStr :=
  if n = 0 then ['0'] else natToStrAux (n + 1) n

/-- Python `str(i)` / f-string interpolation of an integer. -/
def intToStr : Int → PyStr
  | .ofNat n => natToStr n
  | .negSucc m => '-' :: natToStr (m + 1)

/-- Outcome model for the external `tmux` subprocess calls (see the module
doc comment). `Except.error ()` on a query field means the subprocess
exited nonzero, i.e. `CalledProcessError` under `check=True`. -/
structure Gateway where
  listSessionsOut : Except Unit PyStr
  listWindowsOut : PyStr → Except Unit PyStr
  displayMessageOut : PyStr → Int → Except Unit PyStr
  capturePaneOut : PyStr → Int → Int → Except Unit PyStr
  sendKeysOk : PyStr → Int → PyStr → Bool

/-- Converts a subprocess outcome into the exception channel: a nonzero
exit under `check=True` raises `CalledProcessError`. -/
def liftCPE (r : Except Unit PyStr) : Except PyExn PyStr :=
  match r with
  | .ok s => .ok s
  | .error _ => .error .calledProcess

/-- Dataclass `TmuxWindow` of `tmux_utils.py`. -/
structure TmuxWindow where
  session_name : PyStr
  window_index : Int
  window_name : PyStr
  active : Bool
  deriving DecidableEq, Repr

/-- Dataclass `TmuxSession` of `tmux_utils.py`. -/
structure TmuxSession where
  name : PyStr
  windows : List TmuxWindow
  attached : Bool
  deriving DecidableEq, Repr

/-- Inner loop of `get_tmux_sessions` (`tmux_utils.py` lines 136-145):
parses the stripped `list-windows` stdout lines. Each nonempty line must
split on `':'` into exactly three fields
(`window_index, window_name, window_active = window_line.split(':')`),
else `ValueError`; the index goes through `int(...)`. -/
def parseWindows (session_name : PyStr) : List PyStr → Except PyExn (List TmuxWindow)
  | [] => .ok []
  | line :: rest =>
    if line = [] then parseWindows session_name rest
    else
      match pySplit ':' line with
      | [window_index, window_name, window_active] =>
        (match pyInt window_index with
         | .error e => .error e
         | .ok idx =>
           match parseWindows session_name rest with
           | .error e => .error e
           | .ok ws =>
             .ok (⟨session_name, idx, window_name, window_active = pystr "1"⟩ :: ws))
      | _ => .error (.valueError (pystr "values to unpack, expected 3"))

/-- Outer loop of `get_tmux_sessions` (lines 124-152): for each nonempty
session line (`session_name, attached = line.split(':')`, exactly two
fields or `ValueError`), runs `tmux list-windows` for that session
(`check=True`, so a failing query raises `CalledProcessError` out of the
whole loop) and parses its windows. -/
def buildSessions (fW : PyStr → Except Unit PyStr) : List PyStr → Except PyExn (List TmuxSession)
  | [] => .ok []
  | line :: rest =>
    if line = [] then buildSessions fW rest
    else
      match pySplit ':' line with
      | [session_name, attached] =>
        (match liftCPE (fW session_name) with
         | .error e => .error e
         | .ok wout =>
           match parseWindows session_name (pySplit '\n' (pyStrip wout)) with
           | .error e => .error e
           | .ok windows =>
             match buildSessions fW rest with
             | .error e => .error e
             | .ok ss => .ok (⟨session_name, windows, attached = pystr "1"⟩ :: ss))
      | _ => .error (.valueError (pystr "values to unpack, expected 2"))

/-- Body of the `try` block of `TmuxOrchestrator.get_tmux_sessions`
(lines 116-154): list sessions, then build each session with its windows. -/
def get_tmux_sessions_body (gw : Gateway) : Except PyExn (List TmuxSession) :=
  match liftCPE gw.listSessionsOut with
  | .error e => .error e
  | .ok out => buildSessions gw.listWindowsOut (pySplit '\n' (pyStrip out))

/-- `TmuxOrchestrator.get_tmux_sessions` (lines 94-157): the surrounding
`except subprocess.CalledProcessError` clause returns `[]`; any other
exception (e.g. `ValueError` from tuple unpacking) propagates. -/
def get_tmux_sessions (gw : Gateway) : Except PyExn (List TmuxSession) :=
  match get_tmux_sessions_body gw with
  | .ok sessions => .ok sessions
  | .error .calledProcess => .ok []
  | .error e => .error e

/-- The clamping step of `capture_window_content` (lines 187-188):
`if num_lines > self.max_lines_capture: num_lines = self.max_lines_capture`.
This is the effective line count handed to the `capture-pane` call. -/
def capture_effective_lines (max_lines_capture num_lines : Int) : Int :=
  if num_lines > max_lines_capture then max_lines_capture else num_lines

/-- `TmuxOrchestrator.capture_window_content` (lines 159-199): clamps the
requested line count from above, invokes `tmux capture-pane` with the
effective count, and converts a `CalledProcessError` into an error string
instead of raising. -/
def capture_window_content (gw : Gateway) (max_lines_capture : Int)
    (session_name : PyStr) (window_index : Int) (num_lines : Int) : PyStr :=
  match gw.capturePaneOut session_name window_index
      (capture_effective_lines max_lines_capture num_lines) with
  | .ok out => out
  | .error _ => pystr "Error capturing window content"

/-- `TmuxOrchestrator.send_keys_to_window` (lines 220-268). `response`
models the interactive `input("Confirm? (yes/no): ")` answer. The result
pairs the returned boolean with the trace of `send-keys` subprocess
invocations actually issued (the key sequence of each); a rejected
confirmation returns `False` before any subprocess runs, and a failing
subprocess run (`CalledProcessError`, caught) still appears in the trace. -/
def send_keys_to_window (gw : Gateway) (safety_mode : Bool) (response : PyStr)
    (session_name : PyStr) (window_index : Int) (keys : PyStr) (confirm : Bool) :
    Bool × List PyStr :=
  if safety_mode && confirm then
    if pyLower response ≠ pystr "yes" then (false, [])
    else (gw.sendKeysOk session_name window_index keys, [keys])
  else (gw.sendKeysOk session_name window_index keys, [keys])

/-- `TmuxOrchestrator.send_command_to_window` (lines 270-313): first sends
the command text through `send_keys_to_window`; only if that returns
`True` does it invoke `tmux send-keys ... C-m` directly (its own
`CalledProcessError` caught into `False`). Same trace convention as
`send_keys_to_window`. -/
def send_command_to_window (gw : Gateway) (safety_mode : Bool) (response : PyStr)
    (session_name : PyStr) (window_index : Int) (command : PyStr) (confirm : Bool) :
    Bool × List PyStr :=
  match send_keys_to_window gw safety_mode response session_name window_index command confirm with
  | (false, trace) => (false, trace)
  | (true, trace) =>
    (gw.sendKeysOk session_name window_index (pystr "C-m"), trace ++ [pystr "C-m"])

/-- The dictionary values `get_window_info` can place in a window's slot:
the five-key detail dictionary (lines 210-216) or the one-key error
dictionary (line 218). -/
inductive WindowInfoDict where
  | fields (name : PyStr) (active : Bool) (panes : Int) (layout : PyStr) (content : PyStr)
  | errorMarker (msg : PyStr)
  deriving DecidableEq, Repr

/-- `TmuxOrchestrator.get_window_info` (lines 201-218). A failing
`display-message` run is caught and becomes the error dictionary; a
successful run with whitespace-only stdout falls off the `if` and returns
Python `None` (modelled as `Option.none`); otherwise the stripped stdout
is split on `':'` and indexed at 0..3 (possible `IndexError`), the pane
count parsed with `int(...)` (possible `ValueError`), and the content
captured with the default 50-line request. -/
def get_window_info (gw : Gateway) (max_lines_capture : Int)
    (session_name : PyStr) (window_index : Int) : Except PyExn (Option WindowInfoDict) :=
  match gw.displayMessageOut session_name window_index with
  | .error _ => .ok (some (.errorMarker (pystr "Could not get window info")))
  | .ok out =>
    if pyStrip out = [] then .ok none
    else
      let parts := pySplit ':' (pyStrip out)
      match pyIndex parts 0 with
      | .error e => .error e
      | .ok p0 =>
        match pyIndex parts 1 with
        | .error e => .error e
        | .ok p1 =>
          match pyIndex parts 2 with
          | .error e => .error e
          | .ok p2 =>
            match pyInt p2 with
            | .error e => .error e
            | .ok panes =>
              match pyIndex parts 3 with
              | .error e => .error e
              | .ok p3 =>
                .ok (some (.fields p0 (p1 = pystr "1") panes p3
                  (capture_window_content gw max_lines_capture session_name window_index 50)))

/-- One window's slot in the `get_all_windows_status` dictionary
(lines 370-375): index, name, active flag, and the `get_window_info`
result (`none` models Python `None`). -/
structure WindowStatusEntry where
  index : Int
  name : PyStr
  active : Bool
  info : Option WindowInfoDict
  deriving DecidableEq, Repr

/-- One session's slot in the `get_all_windows_status` dictionary
(lines 361-365). -/
structure SessionStatusEntry where
  name : PyStr
  attached : Bool
  windows : List WindowStatusEntry
  deriving DecidableEq, Repr

/-- The `get_all_windows_status` dictionary (lines 354-357). -/
structure StatusSnapshot where
  timestamp : PyStr
  sessions : List SessionStatusEntry
  deriving DecidableEq, Repr

/-- The per-window loop of `get_all_windows_status` (lines 368-376):
queries `get_window_info` for each window and records the slot; an
uncaught exception from `get_window_info` propagates. -/
def buildWindowEntries (gw : Gateway) (max_lines_capture : Int) (session_name : PyStr) :
    List TmuxWindow → Except PyExn (List WindowStatusEntry)
  | [] => .ok []
  | w :: rest =>
    match get_window_info gw max_lines_capture session_name w.window_index with
    | .error e => .error e
    | .ok info =>
      match buildWindowEntries gw max_lines_capture session_name rest with
      | .error e => .error e
      | .ok es => .ok (⟨w.window_index, w.window_name, w.active, info⟩ :: es)

/-- The per-session loop of `get_all_windows_status` (lines 360-378). -/
def buildSessionEntries (gw : Gateway) (max_lines_capture : Int) :
    List TmuxSession → Except PyExn (List SessionStatusEntry)
  | [] => .ok []
  | s :: rest =>
    match buildWindowEntries gw max_lines_capture s.name s.windows with
    | .error e => .error e
    | .ok ws =>
      match buildSessionEntries gw max_lines_capture rest with
      | .error e => .error e
      | .ok es => .ok (⟨s.name, s.attached, ws⟩ :: es)

/-- `TmuxOrchestrator.get_all_windows_status` (lines 315-380). `timestamp`
stands for `datetime.now().isoformat()`, an input of the model. -/
def get_all_windows_status (gw : Gateway) (max_lines_capture : Int) (timestamp : PyStr) :
    Except PyExn StatusSnapshot :=
  match get_tmux_sessions gw with
  | .error e => .error e
  | .ok sessions =>
    match buildSessionEntries gw max_lines_capture sessions with
    | .error e => .error e
    | .ok es => .ok ⟨timestamp, es⟩

/-- `TmuxOrchestrator.find_window_by_name` (lines 382-394): queries a
fresh session snapshot and collects `(session.name, window.window_index)`
for every window whose lowercased name contains the lowercased pattern. -/
def find_window_by_name (gw : Gateway) (window_name : PyStr) :
    Except PyExn (List (PyStr × Int)) :=
  match get_tmux_sessions gw with
  | .error e => .error e
  | .ok sessions =>
    .ok (sessions.foldl (fun acc session =>
      session.windows.foldl (fun acc w =>
        if pyInStr (pyLower window_name) (pyLower w.window_name) then
          acc ++ [(session.name, w.window_index)]
        else acc) acc) [])

/-- The per-window content rendering of `create_monitoring_snapshot`
(lines 449-454): split the captured content on newlines, keep the last 10
lines (`content_lines[-10:]`), and emit each line whose strip is nonempty
prefixed with the marker `"    | "`. -/
def render_recent_output (content : PyStr) : List PyStr :=
  let content_lines := pySplit '\n' content
  let recent_lines :=
    if content_lines.length > 10 then content_lines.drop (content_lines.length - 10)
    else content_lines
  recent_lines.filterMap fun line =>
    if pyStrip line ≠ [] then some (pystr "    | " ++ line) else none

/-- The per-window block of `create_monitoring_snapshot` (lines 440-455):
header line with index, name and active marker, then — only when
`'content' in window['info']` — the recent-output block. The membership
test on the five-key dictionary is true, on the error dictionary false,
and on Python `None` raises
`TypeError: argument of type 'NoneType' is not iterable`. -/
def render_window (w : WindowStatusEntry) : Except PyExn PyStr :=
  let header :=
    pystr "  Window " ++ intToStr w.index ++ pystr ": " ++ w.name ++
    (if w.active then pystr " (ACTIVE)" else []) ++ pystr "\n"
  match w.info with
  | none => .error (.typeError (pystr "argument of type NoneType is not iterable"))
  | some (.errorMarker _) => .ok (header ++ pystr "\n")
  | some (.fields _ _ _ _ content) =>
    .ok (header ++ pystr "    Recent output:\n" ++
      ((render_recent_output content).map (· ++ pystr "\n")).flatten ++ pystr "\n")

/-- The window loop inside one session block of `create_monitoring_snapshot`. -/
def render_windows : List WindowStatusEntry → Except PyExn PyStr
  | [] => .ok []
  | w :: rest =>
    match render_window w with
    | .error e => .error e
    | .ok s =>
      match render_windows rest with
      | .error e => .error e
      | .ok t => .ok (s ++ t)

/-- One session block of `create_monitoring_snapshot` (lines 434-437):
session header with attachment marker, a 30-dash separator, then the
window blocks. -/
def render_session (s : SessionStatusEntry) : Except PyExn PyStr :=
  match render_windows s.windows with
  | .error e => .error e
  | .ok body =>
    .ok (pystr "Session: " ++ s.name ++ pystr " (" ++
      (if s.attached then pystr "ATTACHED" else pystr "DETACHED") ++ pystr ")\n" ++
      List.replicate 30 '-' ++ pystr "\n" ++ body)

/-- The session loop of `create_monitoring_snapshot`. -/
def render_sessions : List SessionStatusEntry → Except PyExn PyStr
  | [] => .ok []
  | s :: rest =>
    match render_session s with
    | .error e => .error e
    | .ok x =>
      match render_sessions rest with
      | .error e => .error e
      | .ok t => .ok (x ++ t)

/-- `TmuxOrchestrator.create_monitoring_snapshot` (lines 396-457): builds
the full status dictionary, then renders the report header (timestamp and
a 50-character `=` rule) followed by every session block. Uncaught
exceptions from assembly or rendering propagate. -/
def create_monitoring_snapshot (gw : Gateway) (max_lines_capture : Int)
    (timestamp : PyStr) : Except PyExn PyStr :=
  match get_all_windows_status gw max_lines_capture timestamp with
  | .error e => .error e
  | .ok status =>
    match render_sessions status.sessions with
    | .error e => .error e
    | .ok body =>
      .ok (pystr "Tmux Monitoring Snapshot - " ++ status.timestamp ++ pystr "\n" ++
        List.replicate 50 '=' ++ pystr "\n\n" ++ body)

/-! Spec-side definitions, written from the specification's words, for the
refinement-style comparisons the claims call for. -/

/-- Modelled from the spec: `clamp(n, lo, hi)`, the claimed effective
capture line count `clamp(n, 1, maxLinesCapture)`. -/
def clampSpec (lo hi n : Int) : Int := max lo (min n hi)

/-- Modelled from the spec: `findWindowsByName(pattern)` as the spec words
it — the `(sessionName, index)` of every window, across all sessions,
whose name contains the pattern case-insensitively. -/
def findWindowsByNameSpec (pattern : PyStr) (sessions : List TmuxSession) :
    List (PyStr × Int) :=
  (sessions.map fun s =>
    (s.windows.filter fun w => pyInStr (pyLower pattern) (pyLower w.window_name)).map
      fun w => (s.name, w.window_index)).flatten

/-- Every window of every session, as `(sessionName, index)` pairs. -/
def allWindowPairs (sessions : List TmuxSession) : List (PyStr × Int) :=
  (sessions.map fun s => s.windows.map fun w => (s.name, w.window_index)).flatten

end TmuxOrchestrator

namespace TmuxOrchestrator

/-! Concrete `Gateway` instances used by counterexamples and witnesses. -/

/-- A gateway on which every subprocess succeeds (with empty output) and
`send-keys` always exits 0. -/
def gwOk : Gateway :=
  ⟨.ok [], fun _ => .ok [], fun _ _ => .ok [], fun _ _ _ => .ok [], fun _ _ _ => true⟩

/-- Two sessions `a` (attached) and `b`; the window-list query succeeds for
`a` and fails for `b`. -/
def gwAB : Gateway :=
  ⟨.ok (pystr "a:1\nb:0"),
   fun n => if n = pystr "a" then .ok (pystr "0:zero:1") else .error (),
   fun _ _ => .ok [], fun _ _ _ => .ok [], fun _ _ _ => true⟩

/-- One session `ai` holding windows `Claude-Agent` (index 0, active) and
`logs` (index 1). -/
def gwAI : Gateway :=
  ⟨.ok (pystr "ai:1"),
   fun n => if n = pystr "ai" then .ok (pystr "0:Claude-Agent:1\n1:logs:0") else .error (),
   fun _ _ => .ok [], fun _ _ _ => .ok [], fun _ _ _ => true⟩

/-- The session list parsed from `gwAI`. -/
def sessionsAI : List TmuxSession :=
  [⟨pystr "ai",
    [⟨pystr "ai", 0, pystr "Claude-Agent", true⟩, ⟨pystr "ai", 1, pystr "logs", false⟩],
    true⟩]

/-- One session `s` with windows 0 and 1; the window-detail query succeeds
for window 0 and fails for window 1. -/
def gwDetail : Gateway :=
  ⟨.ok (pystr "s:1"),
   fun n => if n = pystr "s" then .ok (pystr "0:good:1\n1:bad:0") else .error (),
   fun _ w => if w = 0 then .ok (pystr "good:1:2:layoutA") else .error (),
   fun _ _ _ => .ok (pystr "hello"), fun _ _ _ => true⟩

/-- The session list parsed from `gwDetail`. -/
def sessionsDetail : List TmuxSession :=
  [⟨pystr "s",
    [⟨pystr "s", 0, pystr "good", true⟩, ⟨pystr "s", 1, pystr "bad", false⟩],
    true⟩]

/-- The per-window `get_window_info` outcomes on `gwDetail`. -/
def fDetail : PyStr → TmuxWindow → Option WindowInfoDict := fun _ w =>
  if w.window_index = 0 then
    some (.fields (pystr "good") true 2 (pystr "layoutA") (pystr "hello"))
  else some (.errorMarker (pystr "Could not get window info"))

/-- One session `dev` with one window whose captured content is the four
lines `["", "line1", "", "line2"]`. -/
def gwDigest : Gateway :=
  ⟨.ok (pystr "dev:1"),
   fun n => if n = pystr "dev" then .ok (pystr "0:main:1") else .error (),
   fun _ _ => .ok (pystr "main:1:1:abcd"),
   fun _ _ _ => .ok (pystr "\nline1\n\nline2"), fun _ _ _ => true⟩

/-- The digest rendered from `gwDigest`. -/
def digestC7 : PyStr :=
  match create_monitoring_snapshot gwDigest 1000 (pystr "T") with
  | .ok s => s
  | .error _ => []

/-- One session `s` with one window whose detail query succeeds but prints
nothing (whitespace-only stdout). -/
def gwNoneInfo : Gateway :=
  ⟨.ok (pystr "s:1"),
   fun n => if n = pystr "s" then .ok (pystr "0:w:1") else .error (),
   fun _ _ => .ok [], fun _ _ _ => .ok [], fun _ _ _ => true⟩

/-- A session whose name contains a colon, so the session line has three
`:`-separated fields. -/
def gwColon : Gateway :=
  ⟨.ok (pystr "my:sess:1"), fun _ => .ok [], fun _ _ => .ok [],
   fun _ _ _ => .ok [], fun _ _ _ => true⟩

/-- A window whose name contains a colon, so the window line has four
`:`-separated fields. -/
def gwColonWin : Gateway :=
  ⟨.ok (pystr "a:1"),
   fun n => if n = pystr "a" then .ok (pystr "0:na:me:1") else .error (),
   fun _ _ => .ok [], fun _ _ _ => .ok [], fun _ _ _ => true⟩

/-! General lemmas about the subprocess outcome lifting. -/

@[simp] theorem liftCPE_ok (s : PyStr) : liftCPE (.ok s) = .ok s := rfl

@[simp] theorem liftCPE_error : liftCPE (.error ()) = .error .calledProcess := rfl

/-! Claim C1. -/

/-- C1 counterexample: the code enforces only the upper bound. A request of
5000 is reduced to 1000 as claimed, but a request of 0 is passed through as
0, not raised to 1 as `clamp(0, 1, 1000) = 1` would require. -/
theorem capture_clamp_counterexample :
    capture_effective_lines 1000 5000 = 1000 ∧
    capture_effective_lines 1000 0 = 0 ∧
    clampSpec 1 1000 0 = 1 ∧
    capture_effective_lines 1000 0 ≠ clampSpec 1 1000 0 := by
  decide

/-- C1 amended: for every requested capture line count `n`,
`capture_window_content` issues its Gateway call with an effective line
count equal to `min(n, max_lines_capture)` — the ceiling is enforced, but
no floor of 1 is applied. -/
theorem capture_effective_lines_min (gw : Gateway) (maxL : Int) (s : PyStr) (w n : Int) :
    capture_effective_lines maxL n = min n maxL ∧
    capture_window_content gw maxL s w n = capture_window_content gw maxL s w (min n maxL) := by
  have h : capture_effective_lines maxL n = min n maxL := by
    unfold capture_effective_lines
    rcases le_or_lt n maxL with hle | hlt
    · rw [if_neg (not_lt.mpr hle), min_eq_left hle]
    · rw [if_pos hlt, min_eq_right hlt.le]
  have h2 : capture_effective_lines maxL (min n maxL) = min n maxL := by
    unfold capture_effective_lines
    rw [if_neg (not_lt.mpr (min_le_right n maxL))]
  refine ⟨h, ?_⟩
  unfold capture_window_content
  rw [h, h2]

/-- C1 amended, evaluated: the over-limit request of 5000 under the
default ceiling of 1000. -/
theorem capture_effective_lines_min_witness :
    capture_effective_lines 1000 5000 = min 5000 1000 ∧
    capture_window_content gwOk 1000 (pystr "s") 0 5000
      = capture_window_content gwOk 1000 (pystr "s") 0 (min 5000 1000) :=
  capture_effective_lines_min gwOk 1000 (pystr "s") 0 5000

/-! Claim C4. -/

/-- C4: with safety mode enabled and confirmation not bypassed, any
response whose lowercasing is not exactly `yes` (including the empty
string) makes `send_keys_to_window` return `False` with no `send-keys`
invocation issued, while a case-insensitive `yes` lets the dispatch
proceed (exactly the text invocation is issued). -/
theorem send_keys_confirmation_gate (gw : Gateway) (s : PyStr) (w : Int)
    (keys response : PyStr) :
    (pyLower response ≠ pystr "yes" →
      send_keys_to_window gw true response s w keys true = (false, [])) ∧
    (pyLower response = pystr "yes" →
      (send_keys_to_window gw true response s w keys true).2 = [keys]) := by
  constructor
  · intro h
    unfold send_keys_to_window
    simp [h]
  · intro h
    unfold send_keys_to_window
    simp [h]

/-- C4 witness: the empty response is rejected with an empty invocation
trace; the response `YES` dispatches the text. -/
theorem send_keys_confirmation_gate_witness :
    send_keys_to_window gwOk true (pystr "") (pystr "dev") 0 (pystr "ls") true = (false, []) ∧
    (send_keys_to_window gwOk true (pystr "YES") (pystr "dev") 0 (pystr "ls") true).2
      = [pystr "ls"] :=
  ⟨(send_keys_confirmation_gate gwOk (pystr "dev") 0 (pystr "ls") (pystr "")).1 (by decide),
   (send_keys_confirmation_gate gwOk (pystr "dev") 0 (pystr "ls") (pystr "YES")).2 (by decide)⟩

/-! Claim C3. -/

/-- C3 counterexample: when the safety gate rejects (safety mode on,
confirmation requested, response `no`), `send_command_to_window` issues
zero Gateway `send-keys` invocations, not the claimed exactly one. -/
theorem send_command_rejected_counterexample :
    (send_command_to_window gwOk true (pystr "no") (pystr "dev") 0 (pystr "ls") true).2 = [] ∧
    (send_command_to_window gwOk true (pystr "no") (pystr "dev") 0 (pystr "ls") true).2.length
      ≠ 1 := by
  decide

/-- C3 amended: `send_command_to_window` issues exactly two `send-keys`
invocations (text then `C-m`) when the text step succeeds, exactly one
(the text) when the text invocation runs but fails, and zero when the
safety gate rejects; a second invocation is only ever observed when the
text step succeeded. -/
theorem send_command_gateway_call_counts (gw : Gateway) (safety : Bool)
    (response s : PyStr) (w : Int) (command : PyStr) (confirm : Bool) :
    (safety = true ∧ confirm = true ∧ pyLower response ≠ pystr "yes" →
      send_command_to_window gw safety response s w command confirm = (false, [])) ∧
    (¬(safety = true ∧ confirm = true ∧ pyLower response ≠ pystr "yes") →
      gw.sendKeysOk s w command = true →
      send_command_to_window gw safety response s w command confirm
        = (gw.sendKeysOk s w (pystr "C-m"), [command, pystr "C-m"])) ∧
    (¬(safety = true ∧ confirm = true ∧ pyLower response ≠ pystr "yes") →
      gw.sendKeysOk s w command = false →
      send_command_to_window gw safety response s w command confirm = (false, [command])) ∧
    ((send_command_to_window gw safety response s w command confirm).2.length = 2 →
      gw.sendKeysOk s w command = true) := by
  unfold send_command_to_window send_keys_to_window
  by_cases hr : pyLower response = pystr "yes" <;>
    cases hsk : gw.sendKeysOk s w command <;>
      cases safety <;> cases confirm <;> simp_all

/-- C3 witness: on a gateway whose `send-keys` always succeeds, a confirmed
command produces exactly the two invocations, text then `C-m`. -/
theorem send_command_gateway_call_counts_witness :
    send_command_to_window gwOk true (pystr "yes") (pystr "dev") 0 (pystr "ls") true
      = (true, [pystr "ls", pystr "C-m"]) :=
  (send_command_gateway_call_counts gwOk true (pystr "yes") (pystr "dev") 0
    (pystr "ls") true).2.1 (by decide) (by decide)

end TmuxOrchestrator

namespace TmuxOrchestrator

/-! Claim C2. -/

/-- Unfolding step for `buildSessions` on a well-formed session line. -/
theorem buildSessions_cons_step (fW : PyStr → Except Unit PyStr) (line : PyStr)
    (rest : List PyStr) (sn att : PyStr)
    (hne : line ≠ []) (hsplit : pySplit ':' line = [sn, att]) :
    buildSessions fW (line :: rest) =
      match liftCPE (fW sn) with
      | .error e => .error e
      | .ok wout =>
        match parseWindows sn (pySplit '\n' (pyStrip wout)) with
        | .error e => .error e
        | .ok windows =>
          match buildSessions fW rest with
          | .error e => .error e
          | .ok ss => .ok (⟨sn, windows, att = pystr "1"⟩ :: ss) := by
  conv_lhs => unfold buildSessions
  rw [if_neg hne, hsplit]

/-- C2 counterexample: on a gateway with sessions `a` and `b` where only
session `b`'s window-list query fails, `get_tmux_sessions` returns the
empty list — session `a` is not present with its windows, contradicting
the claim that only the failing session is degraded. -/
theorem get_tmux_sessions_partial_failure_counterexample :
    get_tmux_sessions gwAB = .ok [] ∧
    ¬ ∃ sessions, get_tmux_sessions gwAB = .ok sessions ∧
        ∃ s ∈ sessions, s.name = pystr "a" := by
  refine ⟨by decide, ?_⟩
  rintro ⟨sessions, hs, s, hmem, -⟩
  have h0 : get_tmux_sessions gwAB = Except.ok [] := by decide
  rw [h0] at hs
  injection hs with h1
  rw [← h1] at hmem
  exact absurd hmem (List.not_mem_nil s)

/-- C2 amended: when the session-list query succeeds with sessions `a` and
`b`, session `a`'s window-list query succeeds, and session `b`'s window
query fails, `get_tmux_sessions` catches the failure at top level and
returns the empty list — discarding the already-processed session `a`
rather than returning it populated; no exception propagates. -/
theorem get_tmux_sessions_window_failure_discards_all (gw : Gateway)
    (h1 : gw.listSessionsOut = .ok (pystr "a:1\nb:0"))
    (h2 : gw.listWindowsOut (pystr "a") = .ok (pystr "0:zero:1"))
    (h3 : gw.listWindowsOut (pystr "b") = .error ()) :
    get_tmux_sessions gw = .ok [] := by
  have hbody : get_tmux_sessions_body gw = .error PyExn.calledProcess := by
    unfold get_tmux_sessions_body
    rw [h1, liftCPE_ok]
    show buildSessions gw.listWindowsOut [pystr "a:1", pystr "b:0"]
      = .error PyExn.calledProcess
    rw [buildSessions_cons_step gw.listWindowsOut (pystr "a:1") [pystr "b:0"]
      (pystr "a") (pystr "1") (by decide) (by decide), h2, liftCPE_ok]
    show (match buildSessions gw.listWindowsOut [pystr "b:0"] with
          | .error e => .error e
          | .ok ss =>
            .ok (⟨pystr "a", [⟨pystr "a", 0, pystr "zero", true⟩], true⟩ :: ss))
        = Except.error PyExn.calledProcess
    rw [buildSessions_cons_step gw.listWindowsOut (pystr "b:0") []
      (pystr "b") (pystr "0") (by decide) (by decide), h3, liftCPE_error]
  unfold get_tmux_sessions
  rw [hbody]

/-- C2 witness: the amended behaviour at the concrete gateway `gwAB`. -/
theorem get_tmux_sessions_window_failure_discards_all_witness :
    get_tmux_sessions gwAB = .ok [] :=
  get_tmux_sessions_window_failure_discards_all gwAB (by decide) (by decide) (by decide)

/-! Claim C10. -/

/-- C10: parsing is not total over successful Gateway output. A session
line with three `:`-separated fields (session name containing a colon),
or a window line with four, raises an uncaught `ValueError` from tuple
unpacking instead of producing a session list. -/
theorem get_tmux_sessions_colon_valueerror :
    get_tmux_sessions gwColon
      = .error (.valueError (pystr "values to unpack, expected 2")) ∧
    get_tmux_sessions gwColonWin
      = .error (.valueError (pystr "values to unpack, expected 3")) := by
  decide

/-! Claim C9. -/

/-- C9: when the window-detail query succeeds but prints nothing,
`get_window_info` returns Python `None` (neither a detail dictionary nor
an error marker), and `create_monitoring_snapshot`'s membership test
`'content' in window['info']` on that window then raises `TypeError`
instead of rendering or skipping the window. -/
theorem empty_detail_output_breaks_snapshot :
    get_window_info gwNoneInfo 1000 (pystr "s") 0 = .ok none ∧
    create_monitoring_snapshot gwNoneInfo 1000 (pystr "T")
      = .error (.typeError (pystr "argument of type NoneType is not iterable")) := by
  decide

/-! Claim C7. -/

set_option maxRecDepth 8192 in
/-- C7: rendering the digest for a window whose captured content is the
four lines `["", "line1", "", "line2"]` under the 10-line tail emits
exactly the two non-blank lines `line1` and `line2`, each prefixed with
the marker glyph; the full snapshot for such a window contains exactly
those two marker-prefixed lines. -/
theorem digest_blank_line_filtering :
    render_recent_output (pystr "\nline1\n\nline2")
      = [pystr "    | line1", pystr "    | line2"] ∧
    create_monitoring_snapshot gwDigest 1000 (pystr "T") = .ok digestC7 ∧
    (pySplit '\n' digestC7).filter (fun l => (pystr "    | ").isPrefixOf l)
      = [pystr "    | line1", pystr "    | line2"] := by
  decide

end TmuxOrchestrator

namespace TmuxOrchestrator

/-! Claim C8. -/

/-- Every window parsed by the inner loop carries the session name it was
constructed with. -/
theorem parseWindows_session_name (sn : PyStr) :
    ∀ (lines : List PyStr) (ws : List TmuxWindow),
      parseWindows sn lines = .ok ws → ∀ w ∈ ws, w.session_name = sn := by
  intro lines
  induction lines with
  | nil =>
    intro ws h w hw
    unfold parseWindows at h
    injection h with h1
    rw [← h1] at hw
    exact absurd hw (List.not_mem_nil w)
  | cons line rest ih =>
    intro ws h w hw
    unfold parseWindows at h
    split at h
    · exact ih ws h w hw
    · split at h
      · split at h
        · exact absurd h (by simp)
        · split at h
          · exact absurd h (by simp)
          · next heq =>
            injection h with h1
            rw [← h1] at hw
            rcases List.mem_cons.mp hw with hw | hw
            · rw [hw]
            · exact ih _ heq w hw
      · exact absurd h (by simp)

/-- Every window of every session built by the outer loop carries the name
of the session it belongs to. -/
theorem buildSessions_session_name (fW : PyStr → Except Unit PyStr) :
    ∀ (lines : List PyStr) (ss : List TmuxSession),
      buildSessions fW lines = .ok ss →
      ∀ s ∈ ss, ∀ w ∈ s.windows, w.session_name = s.name := by
  intro lines
  induction lines with
  | nil =>
    intro ss h s hs w hw
    unfold buildSessions at h
    injection h with h1
    rw [← h1] at hs
    exact absurd hs (List.not_mem_nil s)
  | cons line rest ih =>
    intro ss h s hs w hw
    unfold buildSessions at h
    split at h
    · exact ih ss h s hs w hw
    · split at h
      · split at h
        · exact absurd h (by simp)
        · split at h
          · exact absurd h (by simp)
          · next hpw =>
            split at h
            · exact absurd h (by simp)
            · next hrec =>
              injection h with h1
              rw [← h1] at hs
              rcases List.mem_cons.mp hs with hs | hs
              · rw [hs] at hw ⊢
                exact parseWindows_session_name _ _ _ hpw w hw
              · exact ih _ hrec s hs w hw
      · exact absurd h (by simp)

/-- C8: every `TmuxWindow` in the `windows` list of any `TmuxSession`
returned by `get_tmux_sessions` has `session_name` equal to that
session's `name`. -/
theorem windows_session_name_invariant (gw : Gateway) (ss : List TmuxSession)
    (h : get_tmux_sessions gw = .ok ss) :
    ∀ s ∈ ss, ∀ w ∈ s.windows, w.session_name = s.name := by
  unfold get_tmux_sessions at h
  split at h
  · next hbody =>
    injection h with h1
    rw [← h1]
    unfold get_tmux_sessions_body at hbody
    split at hbody
    · exact absurd hbody (by simp)
    · exact buildSessions_session_name _ _ _ hbody
  · next hbody =>
    injection h with h1
    rw [← h1]
    intro s hs
    exact absurd hs (List.not_mem_nil s)
  · exact absurd h (by simp)

/-- C8 witness: the invariant evaluated on the concrete gateway `gwAI`. -/
theorem windows_session_name_invariant_witness :
    (⟨pystr "ai", 0, pystr "Claude-Agent", true⟩ : TmuxWindow).session_name = pystr "ai" :=
  windows_session_name_invariant gwAI sessionsAI (by decide)
    ⟨pystr "ai",
      [⟨pystr "ai", 0, pystr "Claude-Agent", true⟩, ⟨pystr "ai", 1, pystr "logs", false⟩],
      true⟩ (by decide)
    ⟨pystr "ai", 0, pystr "Claude-Agent", true⟩ (by decide)

end TmuxOrchestrator

namespace TmuxOrchestrator

/-! Claim C5. -/

/-- The empty needle is contained in every string. -/
theorem pyInStr_nil (haystack : PyStr) : pyInStr [] haystack = true := by
  cases haystack <;> rfl

/-- Accumulator form of a filtering fold that appends matches. -/
theorem foldl_filter_append {α β : Type} (p : α → Bool) (f : α → β) :
    ∀ (l : List α) (acc : List β),
      l.foldl (fun acc x => if p x then acc ++ [f x] else acc) acc
        = acc ++ (l.filter p).map f := by
  intro l
  induction l with
  | nil => intro acc; simp
  | cons x xs ih =>
    intro acc
    by_cases h : p x <;> simp [h, ih, List.filter_cons]

/-- The nested fold of `find_window_by_name` equals the spec-side
session-by-session filtered map. -/
theorem find_foldl_eq (pattern : PyStr) :
    ∀ (sessions : List TmuxSession) (acc : List (PyStr × Int)),
      sessions.foldl (fun acc session =>
        session.windows.foldl (fun acc w =>
          if pyInStr (pyLower pattern) (pyLower w.window_name) then
            acc ++ [(session.name, w.window_index)]
          else acc) acc) acc
        = acc ++ findWindowsByNameSpec pattern sessions := by
  intro sessions
  induction sessions with
  | nil => intro acc; simp [findWindowsByNameSpec]
  | cons s rest ih =>
    intro acc
    rw [List.foldl_cons,
      foldl_filter_append (fun w => pyInStr (pyLower pattern) (pyLower w.window_name))
        (fun w => (s.name, w.window_index)) s.windows acc,
      ih, findWindowsByNameSpec]
    simp [findWindowsByNameSpec]

/-- C5: `find_window_by_name` performs a case-insensitive substring match
of the pattern against every window's name over the freshly queried
snapshot: on any gateway whose session query parses to `sessions`, the
result is exactly the spec-side filtered sequence (so no error and the
empty sequence when nothing matches), and the empty pattern returns every
window in the system. -/
theorem find_window_by_name_matches_spec (gw : Gateway) (pattern : PyStr)
    (sessions : List TmuxSession) (h : get_tmux_sessions gw = .ok sessions) :
    find_window_by_name gw pattern = .ok (findWindowsByNameSpec pattern sessions) ∧
    find_window_by_name gw [] = .ok (allWindowPairs sessions) := by
  have main : ∀ pat : PyStr,
      find_window_by_name gw pat = .ok (findWindowsByNameSpec pat sessions) := by
    intro pat
    unfold find_window_by_name
    rw [h]
    exact congrArg Except.ok (by rw [find_foldl_eq]; simp)
  refine ⟨main pattern, ?_⟩
  rw [main []]
  have hall : findWindowsByNameSpec [] sessions = allWindowPairs sessions := by
    unfold findWindowsByNameSpec allWindowPairs
    have hfix : ∀ w : TmuxWindow,
        pyInStr (pyLower []) (pyLower w.window_name) = true := by
      intro w; exact pyInStr_nil _
    simp [hfix]
  rw [hall]

/-- C5 witness: on `gwAI`, the pattern `claude` matches the window named
`Claude-Agent` case-insensitively, and the empty pattern matches every
window in the system. -/
theorem find_window_by_name_matches_spec_witness :
    find_window_by_name gwAI (pystr "claude") = .ok [(pystr "ai", 0)] ∧
    find_window_by_name gwAI [] = .ok [(pystr "ai", 0), (pystr "ai", 1)] := by
  have h := find_window_by_name_matches_spec gwAI (pystr "claude") sessionsAI (by decide)
  exact ⟨by rw [h.1]; decide, by rw [h.2]; decide⟩

/-! Claim C6. -/

/-- The per-window loop of snapshot assembly fills each slot from its own
`get_window_info` outcome; no successful per-window outcome aborts it. -/
theorem buildWindowEntries_map (gw : Gateway) (maxL : Int) (sn : PyStr)
    (f : TmuxWindow → Option WindowInfoDict) :
    ∀ ws : List TmuxWindow,
      (∀ w ∈ ws, get_window_info gw maxL sn w.window_index = .ok (f w)) →
      buildWindowEntries gw maxL sn ws
        = .ok (ws.map fun w => ⟨w.window_index, w.window_name, w.active, f w⟩) := by
  intro ws
  induction ws with
  | nil => intro _; rfl
  | cons w rest ih =>
    intro hall
    unfold buildWindowEntries
    rw [hall w (by simp), ih fun x hx => hall x (by simp [hx])]
    rfl

/-- The per-session loop of snapshot assembly, slot by slot. -/
theorem buildSessionEntries_map (gw : Gateway) (maxL : Int)
    (f : PyStr → TmuxWindow → Option WindowInfoDict) :
    ∀ ss : List TmuxSession,
      (∀ s ∈ ss, ∀ w ∈ s.windows,
        get_window_info gw maxL s.name w.window_index = .ok (f s.name w)) →
      buildSessionEntries gw maxL ss
        = .ok (ss.map fun s => ⟨s.name, s.attached,
            s.windows.map fun w => ⟨w.window_index, w.window_name, w.active, f s.name w⟩⟩) := by
  intro ss
  induction ss with
  | nil => intro _; rfl
  | cons s rest ih =>
    intro hall
    unfold buildSessionEntries
    rw [buildWindowEntries_map gw maxL s.name (f s.name) s.windows (hall s (by simp)),
      ih fun x hx => hall x (by simp [hx])]
    rfl

/-- C6: a failing window-detail query is recorded as the error-marker
dictionary in that window's slot, and snapshot assembly fills every
window's slot from its own `get_window_info` outcome — a per-window
failure never aborts assembly of the rest of the snapshot. -/
theorem window_detail_failure_localized (gw : Gateway) (maxL : Int) (ts : PyStr)
    (sessions : List TmuxSession) (f : PyStr → TmuxWindow → Option WindowInfoDict)
    (h1 : get_tmux_sessions gw = .ok sessions)
    (h2 : ∀ s ∈ sessions, ∀ w ∈ s.windows,
        get_window_info gw maxL s.name w.window_index = .ok (f s.name w)) :
    get_all_windows_status gw maxL ts
      = .ok ⟨ts, sessions.map fun s => ⟨s.name, s.attached,
          s.windows.map fun w => ⟨w.window_index, w.window_name, w.active, f s.name w⟩⟩⟩ ∧
    ∀ (s : PyStr) (w : Int), gw.displayMessageOut s w = .error () →
      get_window_info gw maxL s w
        = .ok (some (.errorMarker (pystr "Could not get window info"))) := by
  constructor
  · unfold get_all_windows_status
    rw [h1]
    show (match buildSessionEntries gw maxL sessions with
          | .error e => .error e
          | .ok es => Except.ok (StatusSnapshot.mk ts es))
        = Except.ok ⟨ts, sessions.map fun s => ⟨s.name, s.attached,
            s.windows.map fun w => ⟨w.window_index, w.window_name, w.active, f s.name w⟩⟩⟩
    rw [buildSessionEntries_map gw maxL f sessions h2]
  · intro s w hw
    unfold get_window_info
    rw [hw]

/-- C6 witness: on `gwDetail`, window 1's detail query fails and its slot
holds the error marker, while window 0's slot is fully populated; assembly
completes without an exception. -/
theorem window_detail_failure_localized_witness :
    get_all_windows_status gwDetail 1000 (pystr "T")
      = .ok ⟨pystr "T", [⟨pystr "s", true,
          [⟨0, pystr "good", true,
            some (.fields (pystr "good") true 2 (pystr "layoutA") (pystr "hello"))⟩,
           ⟨1, pystr "bad", false,
            some (.errorMarker (pystr "Could not get window info"))⟩]⟩]⟩ := by
  have h := (window_detail_failure_localized gwDetail 1000 (pystr "T") sessionsDetail
    fDetail (by decide) (by decide)).1
  rw [h]
  decide

end TmuxOrchestrator
